import Mathlib

/-!
Verification of the `Gemini` model-client facade (`src/ai/gemini_util.py`)
against its natural-language specification.

The embedding is shallow: the Python class becomes a Lean structure holding
the configuration; the wrapped `ChatGoogleGenerativeAI` client handle is
split into its static configuration (a structure built at construction) and
its dynamic behavior (an oracle function `List Message → Except ε ρ` passed
to each operation, standing for `self.llm.invoke`).  Python exceptions are
modelled with `Except`; the filesystem is a partial map from paths to byte
lists; Python `base64.b64encode` / `base64.b64decode` are implemented as
executable Lean functions over byte lists (RFC 4648 alphabet with `=`
padding, exactly what the Python standard library produces for well-formed
input).
-/

/-- One unit of a message content list, as built literally by
`Gemini.describe_video`: either `\x7b"type": "text", "text": s\x7d` or
`\x7b"type": "video", "raw_bytes": s\x7d` where `s` is the base64 string. -/
inductive ContentPart where
  | text : String → ContentPart
  | video : String → ContentPart
deriving DecidableEq

/-- A role-tagged message `\x7b"role": r, "content": parts\x7d`. -/
structure Message where
  role : String
  content : List ContentPart
deriving DecidableEq

/-- The response object returned by the wrapped client; `describe_video`
reads its `content` field. -/
structure Response where
  content : String
deriving DecidableEq

/-- The sextet-to-character table of RFC 4648 base64, as used by Python
`base64.b64encode`: `A`-`Z`, `a`-`z`, `0`-`9`, `+`, `/`. -/
def b64Char (n : Nat) : Char :=
  if n < 26 then Char.ofNat (65 + n)
  else if n < 52 then Char.ofNat (97 + (n - 26))
  else if n < 62 then Char.ofNat (48 + (n - 52))
  else if n = 62 then '+'
  else '/'

/-- Inverse character table of base64 decoding. -/
def b64CharVal (c : Char) : Nat :=
  if 65 ≤ c.toNat ∧ c.toNat ≤ 90 then c.toNat - 65
  else if 97 ≤ c.toNat ∧ c.toNat ≤ 122 then c.toNat - 97 + 26
  else if 48 ≤ c.toNat ∧ c.toNat ≤ 57 then c.toNat - 48 + 52
  else if c = '+' then 62
  else 63

/-- `base64.b64encode` on a byte list: three input bytes become four output
characters; a final group of one or two bytes is padded with `=`. -/
def b64Encode : List Nat → List Char
  | [] => []
  | [a] => [b64Char (a / 4), b64Char (a % 4 * 16), '=', '=']
  | [a, b] => [b64Char (a / 4), b64Char (a % 4 * 16 + b / 16), b64Char (b % 16 * 4), '=']
  | a :: b :: c :: rest =>
      b64Char (a / 4) :: b64Char (a % 4 * 16 + b / 16) ::
      b64Char (b % 16 * 4 + c / 64) :: b64Char (c % 64) :: b64Encode rest

/-- `base64.b64decode` on the output alphabet: four characters become three
bytes, with `=` padding signalling a short final group. -/
def b64Decode : List Char → List Nat
  | w :: x :: y :: z :: rest =>
      if y = '=' then [b64CharVal w * 4 + b64CharVal x / 16]
      else if z = '=' then
        [b64CharVal w * 4 + b64CharVal x / 16,
         b64CharVal x % 16 * 16 + b64CharVal y / 4]
      else
        (b64CharVal w * 4 + b64CharVal x / 16) ::
        (b64CharVal x % 16 * 16 + b64CharVal y / 4) ::
        (b64CharVal y % 4 * 64 + b64CharVal z) :: b64Decode rest
  | _ => []

/-- Static configuration of the wrapped `ChatGoogleGenerativeAI` handle, with
exactly the keyword arguments passed in `Gemini.__init__`. -/
structure ChatGoogleGenerativeAI where
  model : String
  api_key : String
  temperature : Nat
  max_tokens : Option Nat
  timeout : Option Nat
  max_retries : Nat
deriving DecidableEq

/-- The facade: `self.model`, `self.api_key` and the held client handle
`self.llm`, as set by `Gemini.__init__`. -/
structure Gemini where
  model : String
  api_key : String
  llm : ChatGoogleGenerativeAI
deriving DecidableEq

/-- The default value of the `model` parameter of `Gemini.__init__`. -/
def defaultModel : String := "models/gemini-1.5-flash"

/-- `Gemini.__init__(api_key, model)`: stores both attributes and builds the
one client handle with `temperature=0`, `max_tokens=None`, `timeout=None`,
`max_retries=2`. -/
def Gemini.init (api_key model : String) : Gemini :=
  { model := model
    api_key := api_key
    llm :=
      { model := model
        api_key := api_key
        temperature := 0
        max_tokens := none
        timeout := none
        max_retries := 2 } }

/-- `Gemini(api_key)` with the `model` parameter left at its default. -/
def Gemini.initDefault (api_key : String) : Gemini :=
  Gemini.init api_key defaultModel

/-- `Gemini.call_llm(messages, stream)`: logs, calls `self.llm.invoke(messages)`
and returns the response; the `invoke` oracle stands for the wrapped client
call and may fail (raise).  The `stream` flag is accepted and never read,
exactly as in the source. -/
def call_llm {ε ρ : Type} (invoke : List Message → Except ε ρ)
    (messages : List Message) (stream : Bool) : Except ε ρ :=
  invoke messages

/-- `self.llm.with_structured_output(structure)`: binds the schema to the
client for one call, yielding an invocable; the oracle `invokeStructured`
stands for the wrapped client behavior under a bound schema. -/
def with_structured_output {σ ε ρ : Type}
    (invokeStructured : σ → List Message → Except ε ρ) (struct : σ) :
    List Message → Except ε ρ :=
  invokeStructured struct

/-- `Gemini.call_llm_json(messages, structure)`: builds the structured client
for this call and invokes it once on the messages. -/
def call_llm_json {σ ε ρ : Type}
    (invokeStructured : σ → List Message → Except ε ρ)
    (messages : List Message) (struct : σ) : Except ε ρ :=
  (with_structured_output invokeStructured struct) messages

/-- The single-message request built inside `Gemini.describe_video`: one user
message whose content is the fixed instruction text part followed by one
video part holding the base64 encoding of the file bytes. -/
def describeMessages (bytes : List Nat) : List Message :=
  [{ role := "user"
     content := [ContentPart.text "Describe this video.",
                 ContentPart.video (String.mk (b64Encode bytes))] }]

/-- `Gemini.describe_video(video_path)`: reads the file bytes (`fs` maps a
path to its byte content, `none` when opening or reading raises), base64
encodes them, sends `describeMessages` through `call_llm` with the default
`stream=False`, and returns the response content; every failure inside the
`try` block is caught, logged, and turned into `None`. -/
def describe_video {ε : Type} (invoke : List Message → Except ε Response)
    (fs : String → Option (List Nat)) (video_path : String) : Option String :=
  match fs video_path with
  | none => none
  | some bytes =>
      match call_llm invoke (describeMessages bytes) false with
      | Except.ok response => some response.content
      | Except.error _ => none

/-- `Gemini.__str__`: the model identifier and the credential masked as a run
of `*` of the same length. -/
def Gemini.toStr (g : Gemini) : String :=
  "Gemini(model=" ++ g.model ++ ", api_key=" ++
    String.mk (List.replicate g.api_key.length '*') ++ ")"

/-- `Gemini.__repr__`: textually the same f-string as `Gemini.__str__`. -/
def Gemini.toRepr (g : Gemini) : String :=
  "Gemini(model=" ++ g.model ++ ", api_key=" ++
    String.mk (List.replicate g.api_key.length '*') ++ ")"

/-- Does `needle` start the list: `l.take needle.length = needle`. -/
def startsWithL : List Char → List Char → Bool
  | _, [] => true
  | [], _ :: _ => false
  | a :: as, b :: bs => a = b && startsWithL as bs

/-- Substring test on character lists: `needle` occurs contiguously in `l`. -/
def hasSub : List Char → List Char → Bool
  | [], needle => startsWithL [] needle
  | a :: rest, needle => startsWithL (a :: rest) needle || hasSub rest needle

/-- Explicit-state form of `call_llm`: the method also returns the facade it
leaves behind; the source assigns to no attribute of `self`. -/
def Gemini.call_llmS {ε ρ : Type} (g : Gemini)
    (invoke : List Message → Except ε ρ) (messages : List Message)
    (stream : Bool) : Except ε ρ × Gemini :=
  (call_llm invoke messages stream, g)

/-- Explicit-state form of `call_llm_json`: the structured client is built
locally for the call and never stored on `self`. -/
def Gemini.call_llm_jsonS {σ ε ρ : Type} (g : Gemini)
    (invokeStructured : σ → List Message → Except ε ρ)
    (messages : List Message) (struct : σ) : Except ε ρ × Gemini :=
  (call_llm_json invokeStructured messages struct, g)

/-- Explicit-state form of `describe_video`. -/
def Gemini.describe_videoS {ε : Type} (g : Gemini)
    (invoke : List Message → Except ε Response)
    (fs : String → Option (List Nat)) (video_path : String) :
    Option String × Gemini :=
  (describe_video invoke fs video_path, g)

/-- Explicit-state form of `__str__`. -/
def Gemini.toStrS (g : Gemini) : String × Gemini :=
  (Gemini.toStr g, g)

/-- The character table and its inverse compose to the identity on sextets. -/
theorem b64CharVal_b64Char : ∀ n : Nat, n < 64 → b64CharVal (b64Char n) = n := by
  decide

/-- No sextet is encoded as the padding character. -/
theorem b64Char_ne_pad : ∀ n : Nat, n < 64 → b64Char n ≠ '=' := by
  decide

/-- Base64 round trip: decoding the encoding of any byte list returns the
byte list. -/
theorem b64_decode_encode (l : List Nat) (h : ∀ b ∈ l, b < 256) :
    b64Decode (b64Encode l) = l := by
  induction l using b64Encode.induct with
  | case1 => rfl
  | case2 a =>
      have ha : a < 256 := h a (by simp)
      simp only [b64Encode, b64Decode, if_pos rfl]
      rw [b64CharVal_b64Char _ (by omega), b64CharVal_b64Char _ (by omega)]
      have e1 : a / 4 * 4 + a % 4 * 16 / 16 = a := by omega
      rw [e1, if_true]
  | case3 a b =>
      have ha : a < 256 := h a (by simp)
      have hb : b < 256 := h b (by simp)
      have hy : b64Char (b % 16 * 4) ≠ '=':= b64Char_ne_pad _ (by omega)
      simp only [b64Encode]
      simp only [b64Decode]
      rw [if_neg hy, if_true]
      rw [b64CharVal_b64Char _ (by omega), b64CharVal_b64Char _ (by omega),
          b64CharVal_b64Char _ (by omega)]
      have e1 : a / 4 * 4 + (a % 4 * 16 + b / 16) / 16 = a := by omega
      have e2 : (a % 4 * 16 + b / 16) % 16 * 16 + b % 16 * 4 / 4 = b := by omega
      rw [e1, e2]
  | case4 a b c rest ih =>
      have ha : a < 256 := h a (by simp)
      have hb : b < 256 := h b (by simp)
      have hc : c < 256 := h c (by simp)
      have hy : b64Char (b % 16 * 4 + c / 64) ≠ '=':= b64Char_ne_pad _ (by omega)
      have hz : b64Char (c % 64) ≠ '=':= b64Char_ne_pad _ (by omega)
      simp only [b64Encode]
      simp only [b64Decode]
      rw [if_neg hy, if_neg hz]
      rw [b64CharVal_b64Char _ (by omega), b64CharVal_b64Char _ (by omega),
          b64CharVal_b64Char _ (by omega), b64CharVal_b64Char _ (by omega)]
      rw [ih (fun x hx => h x (by simp [hx]))]
      have e1 : a / 4 * 4 + (a % 4 * 16 + b / 16) / 16 = a := by omega
      have e2 : (a % 4 * 16 + b / 16) % 16 * 16 + (b % 16 * 4 + c / 64) / 4 = b := by omega
      have e3 : (b % 16 * 4 + c / 64) % 4 * 64 + c % 64 = c := by omega
      rw [e1, e2, e3]

/-- The empty needle starts every list. -/
theorem startsWithL_nil (l : List Char) : startsWithL l [] = true := by
  cases l <;> rfl

/-- A list starts with itself, up to a trailing remainder. -/
theorem startsWithL_append (n post : List Char) : startsWithL (n ++ post) n = true := by
  induction n with
  | nil => simpa using startsWithL_nil post
  | cons a t ih => simp [startsWithL, ih]

/-- A needle that starts the list occurs in the list. -/
theorem hasSub_of_startsWithL (l n : List Char) (h : startsWithL l n = true) :
    hasSub l n = true := by
  cases l with
  | nil => simpa [hasSub] using h
  | cons a t => simp [hasSub, h]

/-- A needle occurs in any list that embeds it between two runs. -/
theorem hasSub_append (pre n post : List Char) :
    hasSub (pre ++ (n ++ post)) n = true := by
  induction pre with
  | nil => exact hasSub_of_startsWithL _ _ (startsWithL_append n post)
  | cons a t ih => simp [hasSub, ih]

/-- Claim C1: `describe_video` never propagates an exception.  Whichever step
fails — the file is unreadable (`fs` yields `none`), or the wrapped model
call raises (`invoke` yields an error) — the operation returns `none`
instead of raising; in particular a non-existent video path yields `none`. -/
theorem describe_video_never_raises {ε : Type}
    (invoke : List Message → Except ε Response)
    (fs : String → Option (List Nat)) (video_path : String) :
    (fs video_path = none → describe_video invoke fs video_path = none) ∧
    (∀ bytes e, fs video_path = some bytes →
      invoke (describeMessages bytes) = Except.error e →
      describe_video invoke fs video_path = none) := by
  constructor
  · intro hfs
    simp [describe_video, hfs]
  · intro bytes e hfs hinv
    simp [describe_video, hfs, call_llm, hinv]

/-- Witness for C1: a missing file and a failing model call both produce
`none`, never an error. -/
theorem describe_video_never_raises_witness :
    describe_video (fun _ => Except.error "boom") (fun _ => none) "missing.mp4" = none ∧
    describe_video (fun _ => Except.error "boom") (fun _ => some [97]) "vid.mp4" = none :=
  ⟨(describe_video_never_raises (fun _ => Except.error "boom") (fun _ => none)
      "missing.mp4").1 rfl,
   (describe_video_never_raises (fun _ => Except.error "boom") (fun _ => some [97])
      "vid.mp4").2 [97] "boom" rfl rfl⟩

/-- Claim C2: for a readable file with byte content `bytes`, `describe_video`
sends the wrapped client exactly one user message holding exactly two parts
in order — the fixed instruction text part, then one video part whose
payload is the base64 encoding of `bytes` (byte-exact round trip) — and on
success returns the text content field of the response. -/
theorem describe_video_request_shape {ε : Type}
    (invoke : List Message → Except ε Response)
    (fs : String → Option (List Nat)) (video_path : String) (bytes : List Nat)
    (hfs : fs video_path = some bytes) (hbytes : ∀ b ∈ bytes, b < 256) :
    describeMessages bytes =
      [{ role := "user"
         content := [ContentPart.text "Describe this video.",
                     ContentPart.video (String.mk (b64Encode bytes))] }] ∧
    b64Decode (b64Encode bytes) = bytes ∧
    describe_video invoke fs video_path =
      (match invoke (describeMessages bytes) with
       | Except.ok r => some r.content
       | Except.error _ => none) := by
  refine ⟨rfl, b64_decode_encode bytes hbytes, ?_⟩
  simp only [describe_video, hfs, call_llm]

/-- Witness for C2: a three-byte file is described through a stub client and
the response content comes back. -/
theorem describe_video_request_shape_witness :
    describe_video (fun _ => (Except.ok (Response.mk "a cat") : Except String Response))
      (fun _ => some [97, 98, 99]) "v.mp4" = some "a cat" := by
  have h := (describe_video_request_shape
      (fun _ => (Except.ok (Response.mk "a cat") : Except String Response))
      (fun _ => some [97, 98, 99]) "v.mp4" [97, 98, 99] rfl (by decide)).2.2
  simpa using h

/-- Claim C3: on a non-empty message sequence, `call_llm` returns exactly
what the wrapped invocation returns on that same sequence — an identity
passthrough with no transformation of messages or response. -/
theorem call_llm_identity_passthrough {ε ρ : Type}
    (invoke : List Message → Except ε ρ) (messages : List Message)
    (stream : Bool) (hne : messages ≠ []) :
    call_llm invoke messages stream = invoke messages := rfl

/-- Witness for C3: a stub client observes its argument passed through
unchanged. -/
theorem call_llm_identity_passthrough_witness :
    call_llm (fun ms => (Except.ok ms.length : Except String Nat))
      [{ role := "user", content := [ContentPart.text "hi"] }] true =
    (fun ms : List Message => (Except.ok ms.length : Except String Nat))
      [{ role := "user", content := [ContentPart.text "hi"] }] :=
  call_llm_identity_passthrough (fun ms => (Except.ok ms.length : Except String Nat))
    [{ role := "user", content := [ContentPart.text "hi"] }] true (by simp)

/-- Claim C5: the `stream` flag of `call_llm` is dead — passing `true` or
`false` gives the same result, and either way the call is the single plain
invocation with no streaming, batching, or chunk aggregation. -/
theorem call_llm_stream_flag_dead {ε ρ : Type}
    (invoke : List Message → Except ε ρ) (messages : List Message) :
    call_llm invoke messages true = call_llm invoke messages false ∧
    (∀ stream, call_llm invoke messages stream = invoke messages) :=
  ⟨rfl, fun _ => rfl⟩

/-- Claim C6: when the wrapped invocation fails, `call_llm` and
`call_llm_json` propagate exactly that error to the caller, with no
catching, transformation, or conversion. -/
theorem errors_propagate_unmodified {σ ε ρ ρ2 : Type}
    (invoke : List Message → Except ε ρ)
    (invokeStructured : σ → List Message → Except ε ρ2)
    (messages : List Message) (stream : Bool) (struct : σ) :
    (∀ e, invoke messages = Except.error e →
      call_llm invoke messages stream = Except.error e) ∧
    (∀ e, invokeStructured struct messages = Except.error e →
      call_llm_json invokeStructured messages struct = Except.error e) :=
  ⟨fun _ he => he, fun _ he => he⟩

/-- Witness for C6: a failing stub client surfaces its error through both
operations unchanged. -/
theorem errors_propagate_unmodified_witness :
    call_llm (fun _ => (Except.error "boom" : Except String Response))
      [{ role := "user", content := [ContentPart.text "hi"] }] false =
      Except.error "boom" ∧
    call_llm_json (fun (_ : Nat) (_ : List Message) => (Except.error "boom" : Except String Nat))
      [{ role := "user", content := [ContentPart.text "hi"] }] 7 =
      Except.error "boom" :=
  ⟨(errors_propagate_unmodified (fun _ => (Except.error "boom" : Except String Response))
      (fun (_ : Nat) (_ : List Message) => (Except.error "boom" : Except String Nat))
      [{ role := "user", content := [ContentPart.text "hi"] }] false 7).1 "boom" rfl,
   (errors_propagate_unmodified (fun _ => (Except.error "boom" : Except String Response))
      (fun (_ : Nat) (_ : List Message) => (Except.error "boom" : Except String Nat))
      [{ role := "user", content := [ContentPart.text "hi"] }] false 7).2 "boom" rfl⟩

/-- Claim C7: construction with a credential and no explicit model identifier
selects `"models/gemini-1.5-flash"`, holds it on the instance, and passes it
to the wrapped client. -/
theorem initDefault_selects_documented_model (api_key : String) :
    (Gemini.initDefault api_key).model = "models/gemini-1.5-flash" ∧
    (Gemini.initDefault api_key).llm.model = "models/gemini-1.5-flash" ∧
    defaultModel = "models/gemini-1.5-flash" :=
  ⟨rfl, rfl, rfl⟩

/-- Claim C8: construction builds exactly one wrapped client handle, with
temperature zero, no token ceiling, no timeout, and a retry budget of 2. -/
theorem init_builds_documented_client_config (api_key model : String) :
    (Gemini.init api_key model).llm =
      { model := model
        api_key := api_key
        temperature := 0
        max_tokens := none
        timeout := none
        max_retries := 2 } := rfl

/-- Claim C9: every operation leaves the facade unchanged — the credential,
model identifier and client handle are never rebound — and the schema bound
by a structured completion does not leak into a later plain completion on
the same instance. -/
theorem operations_preserve_state {σ ε ρ ρ2 : Type} (g : Gemini)
    (invoke : List Message → Except ε Response)
    (invoke2 : List Message → Except ε ρ)
    (invokeStructured : σ → List Message → Except ε ρ2)
    (fs : String → Option (List Nat)) (path : String)
    (messages messages2 : List Message) (stream : Bool) (struct : σ) :
    (Gemini.call_llmS g invoke2 messages stream).2 = g ∧
    (Gemini.call_llm_jsonS g invokeStructured messages struct).2 = g ∧
    (Gemini.describe_videoS g invoke fs path).2 = g ∧
    (Gemini.toStrS g).2 = g ∧
    Gemini.call_llmS (Gemini.call_llm_jsonS g invokeStructured messages struct).2
        invoke2 messages2 stream =
      Gemini.call_llmS g invoke2 messages2 stream :=
  ⟨rfl, rfl, rfl, rfl, rfl⟩

/-- Claim C10: `__str__` and `__repr__` return the identical string on every
instance. -/
theorem str_repr_extensionally_equal (g : Gemini) :
    Gemini.toStr g = Gemini.toRepr g := rfl

/-- Counterexample to claim C4 as stated: take the credential `"*"` and the
model `"m"`.  The text representation is `"Gemini(model=m, api_key=*)"`,
whose masked run for a length-one credential is the single character `*` —
so the representation does contain the literal credential value, refuting
the clause that it never does. -/
theorem masked_credential_cex :
    hasSub (Gemini.toStr (Gemini.init "*" "m")).data (String.data "*") = true := by
  decide

/-- Claim C4 as amended: the text representation contains a run of mask
characters whose length equals the credential length in place of the
credential, and it depends on the credential only through its length, so
the credential value itself is never interpolated; it may still contain the
credential coincidentally, as the counterexample shows. -/
theorem masked_credential_amended (api_key api_key2 model : String)
    (hlen : api_key.length = api_key2.length) :
    hasSub (Gemini.toStr (Gemini.init api_key model)).data
      (List.replicate api_key.length '*') = true ∧
    Gemini.toStr (Gemini.init api_key model) =
      Gemini.toStr (Gemini.init api_key2 model) := by
  constructor
  · have hdecomp : (Gemini.toStr (Gemini.init api_key model)).data =
        ("Gemini(model=" ++ model ++ ", api_key=").data ++
          (List.replicate api_key.length '*' ++ (")").data) := by
      simp [Gemini.toStr, Gemini.init, String.data_append]
    rw [hdecomp]
    exact hasSub_append _ _ _
  · simp [Gemini.toStr, Gemini.init, hlen]

/-- Witness for the amended C4: a six-character credential is rendered as six
mask characters, and any other six-character credential renders the same. -/
theorem masked_credential_amended_witness :
    hasSub (Gemini.toStr (Gemini.init "secret" "m")).data
      (List.replicate (String.length "secret") '*') = true ∧
    Gemini.toStr (Gemini.init "secret" "m") =
      Gemini.toStr (Gemini.init "topkey" "m") :=
  masked_credential_amended "secret" "topkey" "m" rfl
